import Mathlib

/-!
Verification of the snafu-virtstack library: a shallow embedding of the
runtime frame model (src/virtstack/src/lib.rs) and of the code generated by
the stack_trace_debug attribute (src/virtstack_macro/src/lib.rs), together
with theorems settling the specified properties.
-/

namespace Virtstack

/-- Source position, modelling the fields of std::panic::Location that the
library reads: file path, line number, column number. -/
structure Location where
  file : String
  line : Nat
  column : Nat
deriving DecidableEq

/-- One frame of the virtual stack trace, from src/virtstack/src/lib.rs:
a captured location and an owned message string. -/
structure StackFrame where
  location : Location
  message : String
deriving DecidableEq

/-- StackFrame::new from src/virtstack/src/lib.rs: stores the two arguments
as given. -/
def StackFrame.new (location : Location) (message : String) : StackFrame :=
  { location := location, message := message }

/-- The Display impl for StackFrame from src/virtstack/src/lib.rs: the
message, the literal token " at ", then file, line and column separated by
colons. -/
def StackFrame.display (fr : StackFrame) : String :=
  fr.message ++ " at " ++ fr.location.file ++ ":" ++
    Nat.repr fr.location.line ++ ":" ++ Nat.repr fr.location.column

/-- Environment for the generated code: error values are identified by
natural-number ids; `to_string` is the Display rendering an error gives of
itself, and `source` is the std::error::Error source link (the underlying
cause), or none at the root. -/
structure ErrorWorld where
  to_string : Nat → String
  source : Nat → Option Nat

/-- The while-let loop of the generated virtual_stack (the macro's
generate_virtual_stack_trace_impl): starting from the already-pushed head
frame, while the current error has a source, push a frame for that source
(reusing the one captured location) and advance. The Rust loop has no bound;
`fuel` is the step index of a finite unrolling, and `none` means the loop has
not exited within `fuel` iterations. -/
def virtualStackLoop (w : ErrorWorld) (loc : Location) :
    Nat → List StackFrame → Nat → Option (List StackFrame)
  | 0, stack, current =>
    match w.source current with
    | none => some stack
    | some _ => none
  | Nat.succ fuel, stack, current =>
    match w.source current with
    | none => some stack
    | some src =>
      virtualStackLoop w loc fuel
        (stack ++ [StackFrame.new loc (w.to_string src)]) src

/-- The generated virtual_stack function: push a head frame holding the
caller location and the error's own rendering, then run the source-chain
loop. `loc` is the value Location::caller() returns for this invocation. -/
def virtual_stack (w : ErrorWorld) (loc : Location) (fuel : Nat) (e : Nat) :
    Option (List StackFrame) :=
  virtualStackLoop w loc fuel [StackFrame.new loc (w.to_string e)] e

/-- The underlying-cause chain of an error: the error itself followed by the
errors reached by iterating `source`, ending at the root. Same fuel
convention as the loop: `none` means the chain does not bottom out within
`fuel` source steps. -/
def chain (w : ErrorWorld) : Nat → Nat → Option (List Nat)
  | 0, e =>
    match w.source e with
    | none => some [e]
    | some _ => none
  | Nat.succ fuel, e =>
    match w.source e with
    | none => some [e]
    | some s => (chain w fuel s).map (fun l => e :: l)

/-- Sequential writeln! calls: each line is written followed by a newline. -/
def writeln_seq : List String → String
  | [] => ""
  | l :: ls => l ++ "\n" ++ writeln_seq ls

/-- The generated Debug::fmt: an "Error: " header rendering the error
itself, the "Virtual Stack Trace:" line, then one line per frame with a
two-space indent, decimal index, colon, space and the frame's Display
rendering; every line is emitted by writeln!. -/
def debug_fmt (w : ErrorWorld) (loc : Location) (fuel : Nat) (e : Nat) :
    Option String :=
  (virtual_stack w loc fuel e).map (fun stack =>
    writeln_seq (["Error: " ++ w.to_string e, "Virtual Stack Trace:"] ++
      stack.enum.map (fun p =>
        "  " ++ Nat.repr p.fst ++ ": " ++ StackFrame.display p.snd)))

/-- Whether a string's last character is a newline. -/
def ends_with_nl (s : String) : Bool :=
  match s.data.getLast? with
  | some c => c == Char.ofNat 10
  | none => false

/-- A synthetic cyclic error world: every error renders as "boom" and names
error 0 as its source, so the source chain never reaches a root. -/
def cyclicWorld : ErrorWorld :=
  { to_string := fun _ => "boom", source := fun _ => some 0 }

/-- A world whose error 0 has no source. -/
def rootWorld : ErrorWorld :=
  { to_string := fun _ => "lonely", source := fun _ => none }

/-- A world with a two-link chain: error 0 renders "outer failed" and has
source 1; error 1 renders "inner cause" and is the root. -/
def chainWorld : ErrorWorld :=
  { to_string := fun n => if n = 0 then "outer failed" else "inner cause",
    source := fun n => if n = 0 then some 1 else none }

/-- A concrete call-site location. -/
def locA : Location := { file := "src/x.rs", line := 10, column := 5 }

/-- Another concrete call-site location. -/
def locB : Location := { file := "src/main.rs", line := 3, column := 1 }

theorem chain_head (w : ErrorWorld) (fuel e : Nat) (es : List Nat)
    (h : chain w fuel e = some es) : ∃ t, es = e :: t := by
  cases fuel with
  | zero =>
    cases hs : w.source e with
    | none =>
      simp only [chain, hs, Option.some.injEq] at h
      exact ⟨[], h.symm⟩
    | some s => simp [chain, hs] at h
  | succ k =>
    cases hs : w.source e with
    | none =>
      simp only [chain, hs, Option.some.injEq] at h
      exact ⟨[], h.symm⟩
    | some s =>
      simp only [chain, hs] at h
      cases hc : chain w k s with
      | none => rw [hc] at h; simp at h
      | some l =>
        rw [hc] at h
        simp only [Option.map_some', Option.some.injEq] at h
        exact ⟨l, h.symm⟩

theorem loop_of_chain (w : ErrorWorld) (loc : Location) :
    ∀ (fuel e : Nat) (es : List Nat) (acc : List StackFrame),
      chain w fuel e = some es →
      virtualStackLoop w loc fuel acc e =
        some (acc ++ es.tail.map (fun n => StackFrame.new loc (w.to_string n))) := by
  intro fuel
  induction fuel with
  | zero =>
    intro e es acc h
    cases hs : w.source e with
    | none =>
      simp only [chain, hs, Option.some.injEq] at h
      subst h
      simp [virtualStackLoop, hs]
    | some s => simp [chain, hs] at h
  | succ k ih =>
    intro e es acc h
    cases hs : w.source e with
    | none =>
      simp only [chain, hs, Option.some.injEq] at h
      subst h
      simp [virtualStackLoop, hs]
    | some s =>
      simp only [chain, hs] at h
      cases hc : chain w k s with
      | none => rw [hc] at h; simp at h
      | some l =>
        rw [hc] at h
        simp only [Option.map_some', Option.some.injEq] at h
        subst h
        obtain ⟨t, rfl⟩ := chain_head w k s l hc
        have hrec := ih s (s :: t) (acc ++ [StackFrame.new loc (w.to_string s)]) hc
        simp only [virtualStackLoop, hs]
        rw [hrec]
        simp

theorem chain_of_loop (w : ErrorWorld) (loc : Location) :
    ∀ (fuel e : Nat) (acc fs : List StackFrame),
      virtualStackLoop w loc fuel acc e = some fs →
      ∃ es, chain w fuel e = some es ∧
        fs = acc ++ es.tail.map (fun n => StackFrame.new loc (w.to_string n)) := by
  intro fuel
  induction fuel with
  | zero =>
    intro e acc fs h
    cases hs : w.source e with
    | none =>
      simp only [virtualStackLoop, hs, Option.some.injEq] at h
      exact ⟨[e], by simp [chain, hs], by simpa using h.symm⟩
    | some s => simp [virtualStackLoop, hs] at h
  | succ k ih =>
    intro e acc fs h
    cases hs : w.source e with
    | none =>
      simp only [virtualStackLoop, hs, Option.some.injEq] at h
      exact ⟨[e], by simp [chain, hs], by simpa using h.symm⟩
    | some s =>
      simp only [virtualStackLoop, hs] at h
      obtain ⟨es, hc, rfl⟩ := ih s (acc ++ [StackFrame.new loc (w.to_string s)]) fs h
      obtain ⟨t, rfl⟩ := chain_head w k s es hc
      refine ⟨e :: s :: t, ?_, ?_⟩
      · simp [chain, hs, hc]
      · simp

theorem virtual_stack_eq_chain (w : ErrorWorld) (loc : Location) (fuel e : Nat)
    (fs : List StackFrame) (h : virtual_stack w loc fuel e = some fs) :
    ∃ es, chain w fuel e = some es ∧
      fs = es.map (fun n => StackFrame.new loc (w.to_string n)) := by
  obtain ⟨es, hc, rfl⟩ :=
    chain_of_loop w loc fuel e [StackFrame.new loc (w.to_string e)] fs h
  obtain ⟨t, rfl⟩ := chain_head w fuel e es hc
  exact ⟨e :: t, hc, by simp⟩

theorem chain_virtual_stack (w : ErrorWorld) (loc : Location) (fuel e : Nat)
    (es : List Nat) (h : chain w fuel e = some es) :
    virtual_stack w loc fuel e =
      some (es.map (fun n => StackFrame.new loc (w.to_string n))) := by
  obtain ⟨t, rfl⟩ := chain_head w fuel e es h
  have hl := loop_of_chain w loc fuel e (e :: t) [StackFrame.new loc (w.to_string e)] h
  simpa [virtual_stack] using hl

theorem chain_det (w : ErrorWorld) :
    ∀ (f1 e : Nat) (l1 : List Nat) (f2 : Nat) (l2 : List Nat),
      chain w f1 e = some l1 → chain w f2 e = some l2 → l1 = l2 := by
  intro f1
  induction f1 with
  | zero =>
    intro e l1 f2 l2 h1 h2
    cases hs : w.source e with
    | none =>
      simp only [chain, hs, Option.some.injEq] at h1
      cases f2 with
      | zero =>
        simp only [chain, hs, Option.some.injEq] at h2
        rw [← h1, ← h2]
      | succ k2 =>
        simp only [chain, hs, Option.some.injEq] at h2
        rw [← h1, ← h2]
    | some s => simp [chain, hs] at h1
  | succ k1 ih =>
    intro e l1 f2 l2 h1 h2
    cases hs : w.source e with
    | none =>
      simp only [chain, hs, Option.some.injEq] at h1
      cases f2 with
      | zero =>
        simp only [chain, hs, Option.some.injEq] at h2
        rw [← h1, ← h2]
      | succ k2 =>
        simp only [chain, hs, Option.some.injEq] at h2
        rw [← h1, ← h2]
    | some s =>
      cases f2 with
      | zero => simp [chain, hs] at h2
      | succ k2 =>
        simp only [chain, hs] at h1 h2
        cases hc1 : chain w k1 s with
        | none => rw [hc1] at h1; simp at h1
        | some m1 =>
          cases hc2 : chain w k2 s with
          | none => rw [hc2] at h2; simp at h2
          | some m2 =>
            rw [hc1] at h1
            rw [hc2] at h2
            simp only [Option.map_some', Option.some.injEq] at h1 h2
            rw [← h1, ← h2, ih s m1 k2 m2 hc1 hc2]

theorem cyclicWorld_loop_none (loc : Location) :
    ∀ (fuel : Nat) (stack : List StackFrame) (current : Nat),
      virtualStackLoop cyclicWorld loc fuel stack current = none := by
  intro fuel
  induction fuel with
  | zero =>
    intro stack current
    have hs : cyclicWorld.source current = some 0 := rfl
    simp [virtualStackLoop, hs]
  | succ k ih =>
    intro stack current
    have hs : cyclicWorld.source current = some 0 := rfl
    simp only [virtualStackLoop, hs]
    exact ih _ _

theorem writeln_seq_shape :
    ∀ (ls : List String), ls ≠ [] → ∃ t, writeln_seq ls = t ++ "\n" := by
  intro ls
  induction ls with
  | nil => intro h; exact absurd rfl h
  | cons l ls ih =>
    intro _
    cases ls with
    | nil => exact ⟨l, by simp [writeln_seq]⟩
    | cons m ms =>
      obtain ⟨t, ht⟩ := ih (by simp)
      refine ⟨l ++ "\n" ++ t, ?_⟩
      have hw : writeln_seq (l :: m :: ms) = l ++ "\n" ++ writeln_seq (m :: ms) := rfl
      rw [hw, ht]
      simp [String.append_assoc]

theorem ends_with_nl_append (t : String) : ends_with_nl (t ++ "\n") = true := by
  have hd : (t ++ "\n").data = t.data ++ [Char.ofNat 10] := by
    rw [String.data_append]
  simp [ends_with_nl, hd, List.getLast?_concat]

/-- C1: the claim says the generated virtual_stack imposes a maximum frame
count and terminates with a bounded sequence even on a cyclic
underlying-cause chain. The code has no such bound: on the synthetic cyclic
chain (error 0 is its own source) no finite unrolling of the while loop ever
exits, i.e. the collection never returns. -/
theorem virtual_stack_cyclic_diverges :
    ∀ (loc : Location) (fuel : Nat),
      virtual_stack cyclicWorld loc fuel 0 = none := by
  intro loc fuel
  exact cyclicWorld_loop_none loc fuel _ _

/-- C2: the claim says that on hitting the depth/count bound the collector
truncates the sequence and appends a terminal synthetic truncation frame.
The code has no bound and no truncation path: on the cyclic chain that would
trigger such a bound, no call of the generated virtual_stack ever completes,
so no truncated sequence and no synthetic frame is ever produced. -/
theorem virtual_stack_cyclic_no_truncation :
    ∀ (loc : Location) (fuel : Nat),
      (virtual_stack cyclicWorld loc fuel 0).isSome = false := by
  intro loc fuel
  simp [virtual_stack, cyclicWorld_loop_none]

/-- C3: for an error whose underlying-cause chain (the error itself plus the
reachable sources) is the finite list es, the generated virtual_stack
returns exactly one frame per chain entry: the result has length es.length,
which is 1 plus the number of reachable links, entry 0 of the chain is the
outermost error, and the frame at each index i carries the self-rendering of
the i-th error of the chain. -/
theorem virtual_stack_chain_frames (w : ErrorWorld) (loc : Location)
    (fuel e : Nat) (es : List Nat) (h : chain w fuel e = some es) :
    virtual_stack w loc fuel e =
      some (es.map (fun n => StackFrame.new loc (w.to_string n))) ∧
    es.length = 1 + es.tail.length ∧
    es.get? 0 = some e ∧
    ∀ i : Nat,
      ((es.map (fun n => StackFrame.new loc (w.to_string n))).get? i).map
        StackFrame.message = (es.get? i).map w.to_string := by
  obtain ⟨t, rfl⟩ := chain_head w fuel e es h
  refine ⟨chain_virtual_stack w loc fuel e _ h, by simp [Nat.add_comm], rfl, ?_⟩
  intro i
  rw [List.get?_map]
  cases hgi : (e :: t).get? i with
  | none => rfl
  | some n => rfl

/-- Witness for C3 on the concrete two-link chain world. -/
theorem virtual_stack_chain_frames_witness :
    virtual_stack chainWorld locA 1 0 =
      some ([0, 1].map (fun n => StackFrame.new locA (chainWorld.to_string n))) :=
  (virtual_stack_chain_frames chainWorld locA 1 0 [0, 1] (by decide)).1

/-- C4: for an error whose source is none, the generated virtual_stack
returns exactly the one head frame, whose message is the error's own
rendering; the call succeeds under every unrolling bound, including zero
loop iterations. -/
theorem virtual_stack_no_cause (w : ErrorWorld) (loc : Location)
    (fuel e : Nat) (h : w.source e = none) :
    virtual_stack w loc fuel e = some [StackFrame.new loc (w.to_string e)] := by
  cases fuel with
  | zero => simp [virtual_stack, virtualStackLoop, h]
  | succ k => simp [virtual_stack, virtualStackLoop, h]

/-- Witness for C4 on the concrete sourceless world. -/
theorem virtual_stack_no_cause_witness :
    virtual_stack rootWorld locA 3 0 = some [StackFrame.new locA "lonely"] :=
  virtual_stack_no_cause rootWorld locA 3 0 rfl

/-- C5: the Display rendering of a frame is exactly the message, the literal
token " at ", then file, line and column separated by colons with no extra
whitespace or quoting; on the frame built from ("src/x.rs", 10, 5) and
message "boom" it yields "boom at src/x.rs:10:5". -/
theorem stack_frame_display_format :
    (∀ (m f : String) (l c : Nat),
      StackFrame.display (StackFrame.new { file := f, line := l, column := c } m) =
        m ++ " at " ++ f ++ ":" ++ Nat.repr l ++ ":" ++ Nat.repr c) ∧
    StackFrame.display (StackFrame.new locA "boom") = "boom at src/x.rs:10:5" :=
  ⟨fun _ _ _ _ => rfl, by decide⟩

/-- C6: every frame of a sequence returned by one virtual_stack call carries
the same location, the one captured for the head frame at the start of the
invocation. -/
theorem virtual_stack_uniform_location (w : ErrorWorld) (loc : Location)
    (fuel e : Nat) (fs : List StackFrame)
    (h : virtual_stack w loc fuel e = some fs) :
    ∀ fr ∈ fs, fr.location = loc := by
  obtain ⟨es, _, rfl⟩ := virtual_stack_eq_chain w loc fuel e fs h
  intro fr hfr
  simp only [List.mem_map] at hfr
  obtain ⟨n, _, rfl⟩ := hfr
  rfl

/-- Witness for C6 on the concrete two-link chain world. -/
theorem virtual_stack_uniform_location_witness :
    (StackFrame.new locA "inner cause").location = locA :=
  virtual_stack_uniform_location chainWorld locA 1 0
    [StackFrame.new locA "outer failed", StackFrame.new locA "inner cause"]
    (by decide) (StackFrame.new locA "inner cause") (by decide)

/-- C7: the generated Debug output is the line "Error: " followed by the
head frame's message (the error's own display text), then the line
"Virtual Stack Trace:", then one line per frame in order, each two spaces,
the zero-based index, a colon, a space and the frame's Display rendering,
with each line emitted by writeln!. -/
theorem debug_fmt_block (w : ErrorWorld) (loc : Location) (fuel e : Nat)
    (fs : List StackFrame) (f0 : StackFrame)
    (h : virtual_stack w loc fuel e = some fs) (h0 : fs.get? 0 = some f0) :
    debug_fmt w loc fuel e =
      some ("Error: " ++ f0.message ++ "\n" ++ "Virtual Stack Trace:" ++ "\n" ++
        writeln_seq (fs.enum.map (fun p =>
          "  " ++ Nat.repr p.fst ++ ": " ++ StackFrame.display p.snd))) := by
  have hmsg : f0.message = w.to_string e := by
    obtain ⟨es, hc, rfl⟩ := virtual_stack_eq_chain w loc fuel e fs h
    obtain ⟨t, rfl⟩ := chain_head w fuel e es hc
    simp only [List.map_cons, List.get?, Option.some.injEq] at h0
    rw [← h0]
    rfl
  simp only [debug_fmt, h, Option.map_some', hmsg]
  have hw : writeln_seq ((("Error: " ++ w.to_string e) ::
        "Virtual Stack Trace:" :: []) ++
      fs.enum.map (fun p =>
        "  " ++ Nat.repr p.fst ++ ": " ++ StackFrame.display p.snd)) =
      ("Error: " ++ w.to_string e) ++ "\n" ++ ("Virtual Stack Trace:" ++ "\n" ++
        writeln_seq (fs.enum.map (fun p =>
          "  " ++ Nat.repr p.fst ++ ": " ++ StackFrame.display p.snd))) := rfl
  rw [hw]
  simp only [String.append_assoc]

/-- Witness for C7 on the concrete two-link chain world. -/
theorem debug_fmt_block_witness :
    debug_fmt chainWorld locA 1 0 =
      some ("Error: " ++ (StackFrame.new locA "outer failed").message ++ "\n" ++
        "Virtual Stack Trace:" ++ "\n" ++
        writeln_seq (([StackFrame.new locA "outer failed",
            StackFrame.new locA "inner cause"]).enum.map (fun p =>
          "  " ++ Nat.repr p.fst ++ ": " ++ StackFrame.display p.snd))) :=
  debug_fmt_block chainWorld locA 1 0
    [StackFrame.new locA "outer failed", StackFrame.new locA "inner cause"]
    (StackFrame.new locA "outer failed") (by decide) (by decide)

/-- C8: two completed virtual_stack calls on the same unchanged error, even
with different captured call-site locations, return sequences of equal
length with pairwise equal messages. -/
theorem virtual_stack_repeat_messages (w : ErrorWorld) (loc1 loc2 : Location)
    (fuel1 fuel2 e : Nat) (fs1 fs2 : List StackFrame)
    (h1 : virtual_stack w loc1 fuel1 e = some fs1)
    (h2 : virtual_stack w loc2 fuel2 e = some fs2) :
    fs1.length = fs2.length ∧
    fs1.map StackFrame.message = fs2.map StackFrame.message := by
  obtain ⟨es1, hc1, rfl⟩ := virtual_stack_eq_chain w loc1 fuel1 e fs1 h1
  obtain ⟨es2, hc2, rfl⟩ := virtual_stack_eq_chain w loc2 fuel2 e fs2 h2
  have hes : es1 = es2 := chain_det w fuel1 e es1 fuel2 es2 hc1 hc2
  subst hes
  constructor
  · simp
  · simp only [List.map_map]
    rfl

/-- Witness for C8: same chain collected with two different locations and
two different unrolling bounds. -/
theorem virtual_stack_repeat_messages_witness :
    ([StackFrame.new locA "outer failed",
      StackFrame.new locA "inner cause"]).length =
      ([StackFrame.new locB "outer failed",
        StackFrame.new locB "inner cause"]).length ∧
    ([StackFrame.new locA "outer failed",
      StackFrame.new locA "inner cause"]).map StackFrame.message =
      ([StackFrame.new locB "outer failed",
        StackFrame.new locB "inner cause"]).map StackFrame.message :=
  virtual_stack_repeat_messages chainWorld locA locB 1 5 0
    [StackFrame.new locA "outer failed", StackFrame.new locA "inner cause"]
    [StackFrame.new locB "outer failed", StackFrame.new locB "inner cause"]
    (by decide) (by decide)

/-- C9: StackFrame::new is a total constructor with no validation: the
resulting frame's location and message fields equal the arguments exactly as
given. -/
theorem stack_frame_new_stores_fields (l : Location) (m : String) :
    (StackFrame.new l m).location = l ∧ (StackFrame.new l m).message = m :=
  ⟨rfl, rfl⟩

/-- C10: every line of the generated Debug output is written by writeln! and
hence newline-terminated, including the final frame line, so the whole
output ends with a trailing newline character. -/
theorem debug_fmt_trailing_newline (w : ErrorWorld) (loc : Location)
    (fuel e : Nat) (s : String) (h : debug_fmt w loc fuel e = some s) :
    ends_with_nl s = true := by
  simp only [debug_fmt] at h
  cases hv : virtual_stack w loc fuel e with
  | none => rw [hv] at h; simp at h
  | some fs =>
    rw [hv] at h
    simp only [Option.map_some', Option.some.injEq] at h
    obtain ⟨t, ht⟩ := writeln_seq_shape
      (["Error: " ++ w.to_string e, "Virtual Stack Trace:"] ++
        fs.enum.map (fun p =>
          "  " ++ Nat.repr p.fst ++ ": " ++ StackFrame.display p.snd))
      (by simp)
    rw [← h, ht]
    exact ends_with_nl_append t

/-- Witness for C10 on the concrete two-link chain world. -/
theorem debug_fmt_trailing_newline_witness :
    ends_with_nl "Error: outer failed\nVirtual Stack Trace:\n  0: outer failed at src/x.rs:10:5\n  1: inner cause at src/x.rs:10:5\n" = true :=
  debug_fmt_trailing_newline chainWorld locA 1 0 _ (by decide)

end Virtstack
